import Mathlib

/-!
# Verification of the timetable data-synchronization layer

Shallow embedding of the repository's storage stack:

* `APIClient.makeRequest` (apiClient.js) — the Remote Gateway wrapper that
  unwraps the `{success, data, error}` envelope and raises on any failure;
* `APIStorageAdapter` (storage_api.js) — the cache-holding adapter whose
  reads degrade to the in-memory cache on failure;
* `StorageManager` (storage.js) — the unified manager that arbitrates
  between the remote service and `localStorage`, with bounded readiness
  polling, one-time seeding, and per-entity dual-path accessors.

JavaScript objects with an `id` plus entity-specific string fields are
modelled by `Rec`; `localStorage` is an association list from string keys to
stored JSON values (`Store`); asynchronous remote calls are modelled by
passing the call's outcome (`Except String _`) as an explicit oracle
argument, and elapsed polling time by Boolean-valued functions of the
attempt counter.
-/

/-- A persisted/remote entity object: a numeric `id` (assigned remotely or as
`Date.now()` locally) plus its other fields as string key/value pairs.  The
UI never supplies an `id` field of its own, so the JS spread `{id: ..,
...data}` cannot be overridden and is modelled by the separate `id`. -/
structure Rec where
  id : Int
  fields : List (String × String)
deriving DecidableEq, Repr

/-- The timetable grid: day → period → slot-or-empty, as produced by
`getDefaultTimetable` and the backend. -/
def Timetable : Type := List (String × List (String × Option Rec))

instance : DecidableEq Timetable := by
  unfold Timetable
  infer_instance

/-- A JSON value as actually stored under one `localStorage` key by this
code base: an array of entity records, a single record (`currentUser`), or a
timetable grid.  `JSON.stringify`/`JSON.parse` round-trip these values, so
the serialized string is identified with the value. -/
inductive StoreVal where
  | arr (l : List Rec)
  | obj (r : Rec)
  | tt (t : Timetable)
deriving DecidableEq

/-- `localStorage`: an association list from key to stored value. -/
def Store : Type := List (String × StoreVal)

instance : DecidableEq Store := by
  unfold Store
  infer_instance

/-- `localStorage.getItem`: the first binding of the key, if any. -/
def getItem : Store → String → Option StoreVal
  | [], _ => none
  | (k', v) :: rest, k => if k' = k then some v else getItem rest k

/-- `localStorage.setItem`: replace the first binding of the key, or append
a new binding. -/
def setItem : Store → String → StoreVal → Store
  | [], k, v => [(k, v)]
  | (k', v') :: rest, k, v =>
      if k' = k then (k, v) :: rest else (k', v') :: setItem rest k v

/-- `data ? JSON.parse(data) : []` for an array-valued key. -/
def asArr : Option StoreVal → List Rec
  | some (.arr l) => l
  | _ => []

/-- `data ? JSON.parse(data) : null` for the timetable key. -/
def asTT : Option StoreVal → Option Timetable
  | some (.tt t) => some t
  | _ => none

namespace APIClient

/-- The `{success, data?, error?}` response envelope of the backend
(`data` and `error` may be absent). -/
structure Envelope (α : Type) where
  success : Bool
  error : Option String
  data : Option α
deriving DecidableEq

/-- Outcome of one `fetch` as observed by `makeRequest`: the promise may
reject (`netError`), or a response arrives with an HTTP `ok` flag, a status
code, and a body that `response.json()` either parses to an envelope or
fails to parse (`none`). -/
inductive FetchOutcome (α : Type) where
  | netError (msg : String)
  | resp (ok : Bool) (status : Nat) (body : Option (Envelope α))
deriving DecidableEq

/-- The message of the exception `response.json()` raises on an unparseable
body. -/
def jsonParseMsg : String := "SyntaxError: unexpected JSON input"

/-- `APIClient.makeRequest`: parse the body first (so an unparseable body
raises even on a 2xx), then raise on `!response.ok` with
`data.error || "HTTP error! status: S"`, then raise on `!data.success` with
`data.error || "API request failed"`, else return `data.data` when present
and otherwise the whole envelope.  The `catch` block rethrows, so every
failure surfaces as the single raised-error kind `Except.error`. -/
def makeRequest {α : Type} : FetchOutcome α → Except String (α ⊕ Envelope α)
  | .netError m => .error m
  | .resp _ _ none => .error jsonParseMsg
  | .resp ok status (some env) =>
      if ok = false then
        .error (env.error.getD ("HTTP error! status: " ++ toString status))
      else if env.success = false then
        .error (env.error.getD "API request failed")
      else
        .ok (match env.data with
             | some d => Sum.inl d
             | none => Sum.inr env)

/-- `APIClient.healthCheck`: fetch `/health`, compare `data.status` with
the string "healthy"; any raised error is caught and yields `false`. -/
def healthCheck : Except String String → Bool
  | .ok s => s = "healthy"
  | .error _ => false

end APIClient

namespace APIStorageAdapter

/-- The envelope shape `storage_api.js` reads from its client:
a `success` flag and a `data` payload. -/
structure ApiResp (α : Type) where
  success : Bool
  data : α
deriving DecidableEq

/-- The create-response shape read by the adapter's add methods:
a `success` flag and the new record's `id`. -/
structure AddResp where
  success : Bool
  id : Int
deriving DecidableEq

/-- The in-memory cache of `APIStorageAdapter`, seeded in the constructor
with empty collections and null singletons. -/
structure AdapterCache where
  faculty : List Rec
  rooms : List Rec
  subjects : List Rec
  leaveRequests : List Rec
  timetable : Option Timetable
  currentUser : Option Rec
deriving DecidableEq

/-- The constructor's cache. -/
def initCache : AdapterCache :=
  { faculty := [], rooms := [], subjects := [], leaveRequests := [],
    timetable := none, currentUser := none }

/-- `APIStorageAdapter.getFaculty`: on a `success` response replace the
cache and return the fresh data; on `success:false` or a raised transport
error return the cached value (the `catch` swallows the error). -/
def getFaculty (c : AdapterCache) (resp : Except String (ApiResp (List Rec))) :
    List Rec × AdapterCache :=
  match resp with
  | .ok r => if r.success then (r.data, { c with faculty := r.data }) else (c.faculty, c)
  | .error _ => (c.faculty, c)

/-- `APIStorageAdapter.getRooms`: same degrade-to-cache shape as
`getFaculty`. -/
def getRooms (c : AdapterCache) (resp : Except String (ApiResp (List Rec))) :
    List Rec × AdapterCache :=
  match resp with
  | .ok r => if r.success then (r.data, { c with rooms := r.data }) else (c.rooms, c)
  | .error _ => (c.rooms, c)

/-- `APIStorageAdapter.getSubjects`. -/
def getSubjects (c : AdapterCache) (resp : Except String (ApiResp (List Rec))) :
    List Rec × AdapterCache :=
  match resp with
  | .ok r => if r.success then (r.data, { c with subjects := r.data }) else (c.subjects, c)
  | .error _ => (c.subjects, c)

/-- `APIStorageAdapter.getLeaveRequests`. -/
def getLeaveRequests (c : AdapterCache) (resp : Except String (ApiResp (List Rec))) :
    List Rec × AdapterCache :=
  match resp with
  | .ok r =>
      if r.success then (r.data, { c with leaveRequests := r.data }) else (c.leaveRequests, c)
  | .error _ => (c.leaveRequests, c)

/-- The days and period labels of `getDefaultTimetable`. -/
def days : List String := ["Monday", "Tuesday", "Wednesday", "Thursday", "Friday"]

def periods : List String :=
  ["9:00-10:00", "10:00-11:00", "11:00-12:00", "12:00-1:00", "2:00-3:00", "3:00-4:00"]

/-- `getDefaultTimetable`: every (day, period) cell present and empty. -/
def getDefaultTimetable : Timetable :=
  days.map (fun d => (d, periods.map (fun p => (p, (none : Option Rec)))))

/-- The `{timetable: ...}` payload wrapping of the timetable response. -/
structure TTPayload where
  timetable : Timetable
deriving DecidableEq

/-- `APIStorageAdapter.getTimetable`: on `success` with a non-null `data`,
cache and return `data.timetable`; otherwise (including raised errors)
return `cache.timetable || getDefaultTimetable()` leaving the cache
untouched. -/
def getTimetable (c : AdapterCache) (resp : Except String (ApiResp (Option TTPayload))) :
    Timetable × AdapterCache :=
  match resp with
  | .ok r =>
      match r.success, r.data with
      | true, some p => (p.timetable, { c with timetable := some p.timetable })
      | _, _ => (c.timetable.getD getDefaultTimetable, c)
  | .error _ => (c.timetable.getD getDefaultTimetable, c)

/-- `APIStorageAdapter.addFaculty`: on `success` refresh the cache through
`getFaculty` (whose own failure degrades silently) and return
`{...facultyData, id: response.id}`; on `success:false` raise
"Failed to add faculty"; a raised transport error is rethrown by the
`catch`. -/
def addFaculty (c : AdapterCache) (facultyData : List (String × String))
    (addResp : Except String AddResp) (refreshResp : Except String (ApiResp (List Rec))) :
    Except String Rec × AdapterCache :=
  match addResp with
  | .error e => (.error e, c)
  | .ok r =>
      if r.success then
        (.ok ⟨r.id, facultyData⟩, (getFaculty c refreshResp).2)
      else
        (.error "Failed to add faculty", c)

/-- `APIStorageAdapter.removeFaculty`: on `success` filter the identifier
out of the cached list and return it; on `success:false` raise
"Failed to remove faculty"; transport errors are rethrown. -/
def removeFaculty (c : AdapterCache) (i : Int) (resp : Except String (ApiResp Unit)) :
    Except String (List Rec) × AdapterCache :=
  match resp with
  | .error e => (.error e, c)
  | .ok r =>
      if r.success then
        ((.ok (c.faculty.filter (fun f => f.id ≠ i))),
          { c with faculty := c.faculty.filter (fun f => f.id ≠ i) })
      else
        (.error "Failed to remove faculty", c)

end APIStorageAdapter

namespace StorageManager

/-- The mutable flags of `StorageManager` (its constructor sets all three to
`false`). -/
structure SMState where
  useLocalStorage : Bool
  initialized : Bool
  apiAvailable : Bool
deriving DecidableEq

/-- The constructor's state. -/
def initialState : SMState :=
  { useLocalStorage := false, initialized := false, apiAvailable := false }

/-- The process environment `init` observes: whether `window.apiClient`
exists after `t` completed poll sleeps, whether its `initialized` flag is
set after `t` sleeps, and the outcome of the `/health` fetch. -/
structure InitEnv where
  clientAt : Nat → Bool
  clientInitAt : Nat → Bool
  health : Except String String

/-- One manager instance together with the browser `localStorage` and two
event counters: health probes issued and entity requests sent to the Remote
Gateway. -/
structure World where
  sm : SMState
  store : Store
  probes : Nat
  apiCalls : Nat
deriving DecidableEq

/-- One JS polling loop `while (!cond(attempts) && attempts < limit)
{ sleep; attempts++ }`, run with `fuel = limit - attempts`; returns the
final value of `attempts`. -/
def pollLoop (cond : Nat → Bool) (attempts : Nat) : Nat → Nat
  | 0 => attempts
  | fuel + 1 => if cond attempts then attempts else pollLoop cond (attempts + 1) fuel

/-- The default `maxAttempts` of `waitForAPIClient`. -/
def maxAttempts : Nat := 50

/-- `StorageManager.waitForAPIClient`: poll for `window.apiClient` up to
`maxAttempts`, raise if it never appeared, then keep polling (same counter,
ceiling `maxAttempts * 2`) for the client's `initialized` flag — exhausting
the second ceiling is not an error.  Returns the final attempt count. -/
def waitForAPIClient (env : InitEnv) : Except String Nat :=
  let a1 := pollLoop env.clientAt 0 maxAttempts
  if env.clientAt a1 = false then
    .error "API client not available after waiting"
  else
    .ok (pollLoop env.clientInitAt a1 (maxAttempts * 2 - a1))

/-- `localStorage` keys: `localStoragePrefix + entity`, plus the unprefixed
`currentUser` key. -/
def facultyKey : String := "timetable_faculty"

def roomsKey : String := "timetable_rooms"

def subjectsKey : String := "timetable_subjects"

def breaksKey : String := "timetable_breaks"

def practicalsKey : String := "timetable_practicals"

def leaveRequestsKey : String := "timetable_leaveRequests"

def usersKey : String := "timetable_users"

def timetableKey : String := "timetable_timetable"

/-- `StorageManager.getDefaultUsers`: the three built-in accounts. -/
def getDefaultUsers : List Rec :=
  [⟨1, [("username", "admin"), ("password", "admin123"), ("role", "admin"),
        ("name", "System Administrator"), ("email", "admin@college.edu")]⟩,
   ⟨2, [("username", "faculty1"), ("password", "faculty123"), ("role", "faculty"),
        ("name", "S. P. Shinde"), ("email", "shinde@avoce.edu")]⟩,
   ⟨3, [("username", "student1"), ("password", "student123"), ("role", "student"),
        ("name", "Sujay Patil"), ("email", "sujay@college.edu")]⟩]

/-- One entry of the `initLocalStorage` loop:
`if (!localStorage.getItem(key)) localStorage.setItem(key, default)`. -/
def seedKey (st : Store) (k : String) (v : StoreVal) : Store :=
  match getItem st k with
  | some _ => st
  | none => setItem st k v

/-- `StorageManager.initLocalStorage`: seed exactly the six keys of its
`defaultData` object — faculty, rooms, subjects, breaks, leaveRequests and
users — in object order, never overwriting an existing value. -/
def initLocalStorage (st : Store) : Store :=
  let st1 := seedKey st facultyKey (.arr [])
  let st2 := seedKey st1 roomsKey (.arr [])
  let st3 := seedKey st2 subjectsKey (.arr [])
  let st4 := seedKey st3 breaksKey (.arr [])
  let st5 := seedKey st4 leaveRequestsKey (.arr [])
  seedKey st5 usersKey (.arr getDefaultUsers)

/-- `StorageManager.init`: wait for the client (a raised wait error is
caught: fall back to localStorage and seed); otherwise issue the health
probe — healthy commits to the API mode, unhealthy raises into the same
`catch` (falling back and seeding).  Either way `initialized` ends up
`true`, and `init` itself never raises to its caller. -/
def init (w : World) (env : InitEnv) : World :=
  match waitForAPIClient env with
  | .error _ =>
      { w with
        sm := { w.sm with useLocalStorage := true, initialized := true },
        store := initLocalStorage w.store }
  | .ok _ =>
      if APIClient.healthCheck env.health then
        { w with
          sm := { useLocalStorage := false, initialized := true, apiAvailable := true },
          probes := w.probes + 1 }
      else
        { w with
          sm := { useLocalStorage := true, initialized := true, apiAvailable := false },
          probes := w.probes + 1,
          store := initLocalStorage w.store }

/-- The guard `if (!this.initialized) await this.init()` at the head of the
async accessors. -/
def ensureInit (w : World) (env : InitEnv) : World :=
  if w.sm.initialized then w else init w env

/-- `getFacultyFromLocalStorage`. -/
def getFacultyFromLocalStorage (st : Store) : List Rec := asArr (getItem st facultyKey)

/-- `getRoomsFromLocalStorage`. -/
def getRoomsFromLocalStorage (st : Store) : List Rec := asArr (getItem st roomsKey)

/-- `getSubjectsFromLocalStorage`. -/
def getSubjectsFromLocalStorage (st : Store) : List Rec := asArr (getItem st subjectsKey)

/-- `getLeaveRequestsFromLocalStorage`. -/
def getLeaveRequestsFromLocalStorage (st : Store) : List Rec :=
  asArr (getItem st leaveRequestsKey)

/-- `StorageManager.setFaculty`: writes `localStorage` only when
`useLocalStorage` is set; otherwise it does nothing at all. -/
def setFaculty (sm : SMState) (st : Store) (faculty : List Rec) : Store :=
  if sm.useLocalStorage then setItem st facultyKey (.arr faculty) else st

/-- `StorageManager.setRooms`. -/
def setRooms (sm : SMState) (st : Store) (rooms : List Rec) : Store :=
  if sm.useLocalStorage then setItem st roomsKey (.arr rooms) else st

/-- `StorageManager.setSubjects`. -/
def setSubjects (sm : SMState) (st : Store) (subjects : List Rec) : Store :=
  if sm.useLocalStorage then setItem st subjectsKey (.arr subjects) else st

/-- `StorageManager.setLeaveRequests`. -/
def setLeaveRequests (sm : SMState) (st : Store) (requests : List Rec) : Store :=
  if sm.useLocalStorage then setItem st leaveRequestsKey (.arr requests) else st

/-- `StorageManager.setTimetable`. -/
def setTimetable (sm : SMState) (st : Store) (t : Timetable) : Store :=
  if sm.useLocalStorage then setItem st timetableKey (.tt t) else st

/-- `StorageManager.getFaculty`: run the `initialized` guard; in local mode
read the store; in API mode return the remote result, degrading to the
local store on a raised error (the `catch` never rethrows). -/
def getFaculty (w : World) (env : InitEnv) (remote : Except String (List Rec)) :
    List Rec × World :=
  let w := ensureInit w env
  if w.sm.useLocalStorage then
    (asArr (getItem w.store facultyKey), w)
  else
    match remote with
    | .ok l => (l, { w with apiCalls := w.apiCalls + 1 })
    | .error _ => (getFacultyFromLocalStorage w.store, { w with apiCalls := w.apiCalls + 1 })

/-- `StorageManager.getRooms`. -/
def getRooms (w : World) (env : InitEnv) (remote : Except String (List Rec)) :
    List Rec × World :=
  let w := ensureInit w env
  if w.sm.useLocalStorage then
    (asArr (getItem w.store roomsKey), w)
  else
    match remote with
    | .ok l => (l, { w with apiCalls := w.apiCalls + 1 })
    | .error _ => (getRoomsFromLocalStorage w.store, { w with apiCalls := w.apiCalls + 1 })

/-- `StorageManager.getSubjects`. -/
def getSubjects (w : World) (env : InitEnv) (remote : Except String (List Rec)) :
    List Rec × World :=
  let w := ensureInit w env
  if w.sm.useLocalStorage then
    (asArr (getItem w.store subjectsKey), w)
  else
    match remote with
    | .ok l => (l, { w with apiCalls := w.apiCalls + 1 })
    | .error _ => (getSubjectsFromLocalStorage w.store, { w with apiCalls := w.apiCalls + 1 })

/-- `StorageManager.getLeaveRequests`. -/
def getLeaveRequests (w : World) (env : InitEnv) (remote : Except String (List Rec)) :
    List Rec × World :=
  let w := ensureInit w env
  if w.sm.useLocalStorage then
    (asArr (getItem w.store leaveRequestsKey), w)
  else
    match remote with
    | .ok l => (l, { w with apiCalls := w.apiCalls + 1 })
    | .error _ =>
        (getLeaveRequestsFromLocalStorage w.store, { w with apiCalls := w.apiCalls + 1 })

/-- `StorageManager.getTimetable`: same dual path; the local value is
`null` when the key is absent. -/
def getTimetable (w : World) (env : InitEnv) (remote : Except String (Option Timetable)) :
    Option Timetable × World :=
  let w := ensureInit w env
  if w.sm.useLocalStorage then
    (asTT (getItem w.store timetableKey), w)
  else
    match remote with
    | .ok t => (t, { w with apiCalls := w.apiCalls + 1 })
    | .error _ => (asTT (getItem w.store timetableKey), { w with apiCalls := w.apiCalls + 1 })

/-- `StorageManager.addFaculty` (no `initialized` guard in the source):
local mode appends `{id: Date.now(), ...facultyData}` through `setFaculty`;
API mode forwards the remote outcome, rethrowing any error. -/
def addFaculty (w : World) (now : Int) (facultyData : List (String × String))
    (remote : Except String Rec) : Except String Rec × World :=
  if w.sm.useLocalStorage then
    let faculty := getFacultyFromLocalStorage w.store
    let newFaculty : Rec := ⟨now, facultyData⟩
    (.ok newFaculty, { w with store := setFaculty w.sm w.store (faculty ++ [newFaculty]) })
  else
    match remote with
    | .ok r => (.ok r, { w with apiCalls := w.apiCalls + 1 })
    | .error e => (.error e, { w with apiCalls := w.apiCalls + 1 })

/-- `StorageManager.addRoom`. -/
def addRoom (w : World) (now : Int) (roomData : List (String × String))
    (remote : Except String Rec) : Except String Rec × World :=
  if w.sm.useLocalStorage then
    let rooms := getRoomsFromLocalStorage w.store
    let newRoom : Rec := ⟨now, roomData⟩
    (.ok newRoom, { w with store := setRooms w.sm w.store (rooms ++ [newRoom]) })
  else
    match remote with
    | .ok r => (.ok r, { w with apiCalls := w.apiCalls + 1 })
    | .error e => (.error e, { w with apiCalls := w.apiCalls + 1 })

/-- `StorageManager.addSubject`. -/
def addSubject (w : World) (now : Int) (subjectData : List (String × String))
    (remote : Except String Rec) : Except String Rec × World :=
  if w.sm.useLocalStorage then
    let subjects := getSubjectsFromLocalStorage w.store
    let newSubject : Rec := ⟨now, subjectData⟩
    (.ok newSubject, { w with store := setSubjects w.sm w.store (subjects ++ [newSubject]) })
  else
    match remote with
    | .ok r => (.ok r, { w with apiCalls := w.apiCalls + 1 })
    | .error e => (.error e, { w with apiCalls := w.apiCalls + 1 })

/-- `StorageManager.addLeaveRequest`: the local record carries
`status: 'pending'` and `created_at` (the ISO timestamp is passed in as
`nowISO`) before the spread of the caller's data. -/
def addLeaveRequest (w : World) (now : Int) (nowISO : String)
    (requestData : List (String × String)) (remote : Except String Rec) :
    Except String Rec × World :=
  if w.sm.useLocalStorage then
    let requests := getLeaveRequestsFromLocalStorage w.store
    let newRequest : Rec := ⟨now, ("status", "pending") :: ("created_at", nowISO) :: requestData⟩
    (.ok newRequest,
      { w with store := setLeaveRequests w.sm w.store (requests ++ [newRequest]) })
  else
    match remote with
    | .ok r => (.ok r, { w with apiCalls := w.apiCalls + 1 })
    | .error e => (.error e, { w with apiCalls := w.apiCalls + 1 })

/-- `StorageManager.removeFaculty`: local mode filters the id out
unconditionally; API mode forwards, rethrowing errors. -/
def removeFaculty (w : World) (i : Int) (remote : Except String Unit) :
    Except String Unit × World :=
  if w.sm.useLocalStorage then
    let filtered := (getFacultyFromLocalStorage w.store).filter (fun f => f.id ≠ i)
    (.ok (), { w with store := setFaculty w.sm w.store filtered })
  else
    match remote with
    | .ok _ => (.ok (), { w with apiCalls := w.apiCalls + 1 })
    | .error e => (.error e, { w with apiCalls := w.apiCalls + 1 })

/-- `StorageManager.removeRoom`. -/
def removeRoom (w : World) (i : Int) (remote : Except String Unit) :
    Except String Unit × World :=
  if w.sm.useLocalStorage then
    let filtered := (getRoomsFromLocalStorage w.store).filter (fun r => r.id ≠ i)
    (.ok (), { w with store := setRooms w.sm w.store filtered })
  else
    match remote with
    | .ok _ => (.ok (), { w with apiCalls := w.apiCalls + 1 })
    | .error e => (.error e, { w with apiCalls := w.apiCalls + 1 })

/-- `StorageManager.removeSubject`. -/
def removeSubject (w : World) (i : Int) (remote : Except String Unit) :
    Except String Unit × World :=
  if w.sm.useLocalStorage then
    let filtered := (getSubjectsFromLocalStorage w.store).filter (fun s => s.id ≠ i)
    (.ok (), { w with store := setSubjects w.sm w.store filtered })
  else
    match remote with
    | .ok _ => (.ok (), { w with apiCalls := w.apiCalls + 1 })
    | .error e => (.error e, { w with apiCalls := w.apiCalls + 1 })

/-- `StorageManager.getBreaks`: synchronous, localStorage only — no mode
check, no gateway call, in either mode. -/
def getBreaks (st : Store) : List Rec := asArr (getItem st breaksKey)

/-- `StorageManager.setBreaks`: unconditional `localStorage.setItem`. -/
def setBreaks (st : Store) (breaks : List Rec) : Store :=
  setItem st breaksKey (.arr breaks)

/-- `StorageManager.addBreak`. -/
def addBreak (st : Store) (now : Int) (breakData : List (String × String)) : Rec × Store :=
  let newBreak : Rec := ⟨now, breakData⟩
  (newBreak, setBreaks st (getBreaks st ++ [newBreak]))

/-- `StorageManager.removeBreak`. -/
def removeBreak (st : Store) (i : Int) : Store :=
  setBreaks st ((getBreaks st).filter (fun b => b.id ≠ i))

/-- `StorageManager.getPracticals`: synchronous, localStorage only. -/
def getPracticals (st : Store) : List Rec := asArr (getItem st practicalsKey)

/-- `StorageManager.setPracticals`. -/
def setPracticals (st : Store) (practicals : List Rec) : Store :=
  setItem st practicalsKey (.arr practicals)

/-- `StorageManager.addPractical`. -/
def addPractical (st : Store) (now : Int) (practicalData : List (String × String)) :
    Rec × Store :=
  let newPractical : Rec := ⟨now, practicalData⟩
  (newPractical, setPracticals st (getPracticals st ++ [newPractical]))

/-- `StorageManager.removePractical`. -/
def removePractical (st : Store) (i : Int) : Store :=
  setPracticals st ((getPracticals st).filter (fun p => p.id ≠ i))

/-- One consumer-visible operation on the manager, carrying the outcome the
Remote Gateway would give it if it were invoked. -/
inductive SMOp where
  | opGetFaculty (remote : Except String (List Rec))
  | opAddFaculty (now : Int) (d : List (String × String)) (remote : Except String Rec)
  | opRemoveFaculty (i : Int) (remote : Except String Unit)
  | opGetBreaks
  | opAddBreak (now : Int) (d : List (String × String))
  | opRemoveBreak (i : Int)
  | opGetPracticals
  | opAddPractical (now : Int) (d : List (String × String))
  | opRemovePractical (i : Int)

/-- Whether an operation targets the breaks or practicals entity. -/
def SMOp.isBreakOrPractical : SMOp → Bool
  | .opGetBreaks => true
  | .opAddBreak _ _ => true
  | .opRemoveBreak _ => true
  | .opGetPracticals => true
  | .opAddPractical _ _ => true
  | .opRemovePractical _ => true
  | _ => false

/-- Run one operation, keeping only the updated world. -/
def runOp (env : InitEnv) (w : World) : SMOp → World
  | .opGetFaculty remote => (getFaculty w env remote).2
  | .opAddFaculty now d remote => (addFaculty w now d remote).2
  | .opRemoveFaculty i remote => (removeFaculty w i remote).2
  | .opGetBreaks => w
  | .opAddBreak now d => { w with store := (addBreak w.store now d).2 }
  | .opRemoveBreak i => { w with store := removeBreak w.store i }
  | .opGetPracticals => w
  | .opAddPractical now d => { w with store := (addPractical w.store now d).2 }
  | .opRemovePractical i => { w with store := removePractical w.store i }

/-- Run a sequence of operations left to right. -/
def runOps (env : InitEnv) (w : World) : List SMOp → World
  | [] => w
  | op :: ops => runOps env (runOp env w op) ops

end StorageManager

/-- An environment where the gateway is up and healthy from the start. -/
def envOK : StorageManager.InitEnv :=
  { clientAt := fun _ => true, clientInitAt := fun _ => true, health := .ok "healthy" }

/-- An environment where `window.apiClient` never appears. -/
def envDown : StorageManager.InitEnv :=
  { clientAt := fun _ => false, clientInitAt := fun _ => false,
    health := .error "ECONNREFUSED" }

/-- An environment where the gateway appears but the health probe reports a
non-healthy status. -/
def envSick : StorageManager.InitEnv :=
  { clientAt := fun _ => true, clientInitAt := fun _ => true, health := .ok "starting" }

/-- A freshly constructed manager over an empty `localStorage`. -/
def wFresh : StorageManager.World :=
  { sm := StorageManager.initialState, store := [], probes := 0, apiCalls := 0 }

/-- A manager that committed to REMOTE mode, over an empty `localStorage`. -/
def wRemote : StorageManager.World :=
  { sm := { useLocalStorage := false, initialized := true, apiAvailable := true },
    store := [], probes := 1, apiCalls := 0 }

/-- A manager that committed to LOCAL mode, over a store holding one faculty
record. -/
def wLocal : StorageManager.World :=
  { sm := { useLocalStorage := true, initialized := true, apiAvailable := false },
    store := [(StorageManager.facultyKey, .arr [⟨1, [("name", "A")]⟩])],
    probes := 0, apiCalls := 0 }

/-- Sample entity data, as a UI form would submit it. -/
def dataA : List (String × String) := [("name", "A"), ("subject", "Math"), ("email", "a@x.com")]

theorem getItem_setItem_self (st : Store) (k : String) (v : StoreVal) :
    getItem (setItem st k v) k = some v := by
  induction st with
  | nil => simp [setItem, getItem]
  | cons hd rest ih =>
      obtain ⟨k', v'⟩ := hd
      by_cases h : k' = k
      · simp [setItem, getItem, h]
      · simp [setItem, getItem, h, ih]

theorem getItem_setItem_other (st : Store) (k k' : String) (v : StoreVal)
    (h : k' ≠ k) : getItem (setItem st k v) k' = getItem st k' := by
  have hk : k ≠ k' := Ne.symm h
  induction st with
  | nil => simp [setItem, getItem, hk]
  | cons hd rest ih =>
      obtain ⟨k0, v0⟩ := hd
      by_cases h0 : k0 = k
      · subst h0
        simp [setItem, getItem, hk]
      · simp [setItem, getItem, h0, ih]

theorem setItem_eq_self (st : Store) (k : String) (v : StoreVal)
    (h : getItem st k = some v) : setItem st k v = st := by
  induction st with
  | nil => simp [getItem] at h
  | cons hd rest ih =>
      obtain ⟨k', v'⟩ := hd
      by_cases h' : k' = k
      · subst h'
        simp [getItem] at h
        simp [setItem, h]
      · simp [getItem, h'] at h
        simp [setItem, h', ih h]

namespace StorageManager

theorem getItem_seedKey_self (st : Store) (k : String) (v : StoreVal) :
    getItem (seedKey st k v) k = some ((getItem st k).getD v) := by
  unfold seedKey
  cases h : getItem st k with
  | some u => simp [h]
  | none => simp [getItem_setItem_self]

theorem getItem_seedKey_other (st : Store) (k k' : String) (v : StoreVal)
    (h : k' ≠ k) : getItem (seedKey st k v) k' = getItem st k' := by
  unfold seedKey
  cases getItem st k with
  | some u => rfl
  | none => exact getItem_setItem_other st k k' v h

theorem getItem_seedKey_preserved (st : Store) (k k' : String) (v u : StoreVal)
    (h : getItem st k' = some u) : getItem (seedKey st k v) k' = some u := by
  by_cases hk : k' = k
  · subst hk
    rw [getItem_seedKey_self, h]
    rfl
  · rw [getItem_seedKey_other st k k' v hk]
    exact h

theorem seedKey_of_isSome (st : Store) (k : String) (v : StoreVal)
    (h : (getItem st k).isSome = true) : seedKey st k v = st := by
  unfold seedKey
  cases hg : getItem st k with
  | some u => rfl
  | none => rw [hg] at h; cases h

theorem getItem_initLocalStorage_faculty (st : Store) :
    getItem (initLocalStorage st) facultyKey
      = some ((getItem st facultyKey).getD (.arr [])) := by
  simp only [initLocalStorage]
  rw [getItem_seedKey_other _ _ _ _ (by decide),
      getItem_seedKey_other _ _ _ _ (by decide),
      getItem_seedKey_other _ _ _ _ (by decide),
      getItem_seedKey_other _ _ _ _ (by decide),
      getItem_seedKey_other _ _ _ _ (by decide),
      getItem_seedKey_self]

theorem getItem_initLocalStorage_rooms (st : Store) :
    getItem (initLocalStorage st) roomsKey
      = some ((getItem st roomsKey).getD (.arr [])) := by
  simp only [initLocalStorage]
  rw [getItem_seedKey_other _ _ _ _ (by decide),
      getItem_seedKey_other _ _ _ _ (by decide),
      getItem_seedKey_other _ _ _ _ (by decide),
      getItem_seedKey_other _ _ _ _ (by decide),
      getItem_seedKey_self,
      getItem_seedKey_other _ _ _ _ (by decide)]

theorem getItem_initLocalStorage_subjects (st : Store) :
    getItem (initLocalStorage st) subjectsKey
      = some ((getItem st subjectsKey).getD (.arr [])) := by
  simp only [initLocalStorage]
  rw [getItem_seedKey_other _ _ _ _ (by decide),
      getItem_seedKey_other _ _ _ _ (by decide),
      getItem_seedKey_other _ _ _ _ (by decide),
      getItem_seedKey_self,
      getItem_seedKey_other _ _ _ _ (by decide),
      getItem_seedKey_other _ _ _ _ (by decide)]

theorem getItem_initLocalStorage_breaks (st : Store) :
    getItem (initLocalStorage st) breaksKey
      = some ((getItem st breaksKey).getD (.arr [])) := by
  simp only [initLocalStorage]
  rw [getItem_seedKey_other _ _ _ _ (by decide),
      getItem_seedKey_other _ _ _ _ (by decide),
      getItem_seedKey_self,
      getItem_seedKey_other _ _ _ _ (by decide),
      getItem_seedKey_other _ _ _ _ (by decide),
      getItem_seedKey_other _ _ _ _ (by decide)]

theorem getItem_initLocalStorage_leaveRequests (st : Store) :
    getItem (initLocalStorage st) leaveRequestsKey
      = some ((getItem st leaveRequestsKey).getD (.arr [])) := by
  simp only [initLocalStorage]
  rw [getItem_seedKey_other _ _ _ _ (by decide),
      getItem_seedKey_self,
      getItem_seedKey_other _ _ _ _ (by decide),
      getItem_seedKey_other _ _ _ _ (by decide),
      getItem_seedKey_other _ _ _ _ (by decide),
      getItem_seedKey_other _ _ _ _ (by decide)]

theorem getItem_initLocalStorage_users (st : Store) :
    getItem (initLocalStorage st) usersKey
      = some ((getItem st usersKey).getD (.arr getDefaultUsers)) := by
  simp only [initLocalStorage]
  rw [getItem_seedKey_self,
      getItem_seedKey_other _ _ _ _ (by decide),
      getItem_seedKey_other _ _ _ _ (by decide),
      getItem_seedKey_other _ _ _ _ (by decide),
      getItem_seedKey_other _ _ _ _ (by decide),
      getItem_seedKey_other _ _ _ _ (by decide)]

theorem getItem_initLocalStorage_preserved (st : Store) (k : String) (v : StoreVal)
    (h : getItem st k = some v) : getItem (initLocalStorage st) k = some v := by
  simp only [initLocalStorage]
  apply getItem_seedKey_preserved
  apply getItem_seedKey_preserved
  apply getItem_seedKey_preserved
  apply getItem_seedKey_preserved
  apply getItem_seedKey_preserved
  apply getItem_seedKey_preserved
  exact h

theorem initLocalStorage_of_seeded (st : Store)
    (h1 : (getItem st facultyKey).isSome = true)
    (h2 : (getItem st roomsKey).isSome = true)
    (h3 : (getItem st subjectsKey).isSome = true)
    (h4 : (getItem st breaksKey).isSome = true)
    (h5 : (getItem st leaveRequestsKey).isSome = true)
    (h6 : (getItem st usersKey).isSome = true) :
    initLocalStorage st = st := by
  simp only [initLocalStorage]
  rw [seedKey_of_isSome st facultyKey _ h1,
      seedKey_of_isSome st roomsKey _ h2,
      seedKey_of_isSome st subjectsKey _ h3,
      seedKey_of_isSome st breaksKey _ h4,
      seedKey_of_isSome st leaveRequestsKey _ h5,
      seedKey_of_isSome st usersKey _ h6]

theorem initLocalStorage_idem (st : Store) :
    initLocalStorage (initLocalStorage st) = initLocalStorage st := by
  apply initLocalStorage_of_seeded <;>
    simp [getItem_initLocalStorage_faculty, getItem_initLocalStorage_rooms,
      getItem_initLocalStorage_subjects, getItem_initLocalStorage_breaks,
      getItem_initLocalStorage_leaveRequests, getItem_initLocalStorage_users]

end StorageManager

theorem pollLoop_le (cond : Nat → Bool) (a fuel : Nat) :
    StorageManager.pollLoop cond a fuel ≤ a + fuel := by
  induction fuel generalizing a with
  | zero => simp [StorageManager.pollLoop]
  | succ n ih =>
      simp only [StorageManager.pollLoop]
      cases hc : cond a
      · have := ih (a + 1)
        simp only [Bool.false_eq_true, if_false]
        omega
      · simp

theorem filter_not_id_eq_self (l : List Rec) (i : Int) (h : i ∉ l.map Rec.id) :
    l.filter (fun r => !decide (r.id = i)) = l := by
  rw [List.filter_eq_self]
  intro a ha
  have hne : a.id ≠ i := fun he => h (List.mem_map.mpr ⟨a, ha, he⟩)
  simpa using hne

/-- C8: the readiness wait is a bounded polling loop — after at most `fuel`
further attempts every loop exits, so `waitForAPIClient` always terminates;
and when `window.apiClient` never appears the wait raises, `init` absorbs
the error (it returns normally to its caller) and commits to LOCAL mode
with initialization completed. -/
theorem claim_C8_bounded_wait_fails_open_to_local :
    (∀ (cond : Nat → Bool) (a fuel : Nat), StorageManager.pollLoop cond a fuel ≤ a + fuel)
    ∧ ∀ (w : StorageManager.World) (env : StorageManager.InitEnv),
        (∀ t, env.clientAt t = false) →
        StorageManager.waitForAPIClient env
            = .error "API client not available after waiting"
          ∧ (StorageManager.init w env).sm.useLocalStorage = true
          ∧ (StorageManager.init w env).sm.initialized = true := by
  constructor
  · exact pollLoop_le
  · intro w env h
    have hw : StorageManager.waitForAPIClient env
        = .error "API client not available after waiting" := by
      simp [StorageManager.waitForAPIClient, h]
    exact ⟨hw, by simp [StorageManager.init, hw], by simp [StorageManager.init, hw]⟩

theorem claim_C8_witness :
    StorageManager.pollLoop (fun _ => false) 0 StorageManager.maxAttempts
        ≤ 0 + StorageManager.maxAttempts
      ∧ (StorageManager.init wFresh envDown).sm.useLocalStorage = true :=
  ⟨claim_C8_bounded_wait_fails_open_to_local.1 _ 0 _,
   ((claim_C8_bounded_wait_fails_open_to_local.2 wFresh envDown (fun _ => rfl)).2).1⟩

/-- C9: in LOCAL mode, removing an identifier that is not present in the
stored collection raises nothing and leaves the stored collection — indeed
the whole store — unchanged, for faculty, rooms, subjects, breaks and
practicals alike. -/
theorem claim_C9_remove_missing_id_is_noop (w : StorageManager.World) (i : Int)
    (lf lr ls lb lp : List Rec) (remote : Except String Unit)
    (hmode : w.sm.useLocalStorage = true) :
    (getItem w.store StorageManager.facultyKey = some (.arr lf) → i ∉ lf.map Rec.id →
      StorageManager.removeFaculty w i remote = (.ok (), w))
    ∧ (getItem w.store StorageManager.roomsKey = some (.arr lr) → i ∉ lr.map Rec.id →
      StorageManager.removeRoom w i remote = (.ok (), w))
    ∧ (getItem w.store StorageManager.subjectsKey = some (.arr ls) → i ∉ ls.map Rec.id →
      StorageManager.removeSubject w i remote = (.ok (), w))
    ∧ (getItem w.store StorageManager.breaksKey = some (.arr lb) → i ∉ lb.map Rec.id →
      StorageManager.removeBreak w.store i = w.store)
    ∧ (getItem w.store StorageManager.practicalsKey = some (.arr lp) → i ∉ lp.map Rec.id →
      StorageManager.removePractical w.store i = w.store) := by
  refine ⟨fun hf hni => ?_, fun hf hni => ?_, fun hf hni => ?_,
    fun hf hni => ?_, fun hf hni => ?_⟩
  · simp [StorageManager.removeFaculty, hmode, StorageManager.getFacultyFromLocalStorage,
      hf, asArr, filter_not_id_eq_self lf i hni, StorageManager.setFaculty,
      setItem_eq_self _ _ _ hf]
  · simp [StorageManager.removeRoom, hmode, StorageManager.getRoomsFromLocalStorage,
      hf, asArr, filter_not_id_eq_self lr i hni, StorageManager.setRooms,
      setItem_eq_self _ _ _ hf]
  · simp [StorageManager.removeSubject, hmode, StorageManager.getSubjectsFromLocalStorage,
      hf, asArr, filter_not_id_eq_self ls i hni, StorageManager.setSubjects,
      setItem_eq_self _ _ _ hf]
  · simp [StorageManager.removeBreak, StorageManager.getBreaks, hf, asArr,
      filter_not_id_eq_self lb i hni, StorageManager.setBreaks,
      setItem_eq_self _ _ _ hf]
  · simp [StorageManager.removePractical, StorageManager.getPracticals, hf, asArr,
      filter_not_id_eq_self lp i hni, StorageManager.setPracticals,
      setItem_eq_self _ _ _ hf]

theorem claim_C9_witness :
    StorageManager.removeFaculty wLocal 2 (.ok ()) = (.ok (), wLocal) :=
  (claim_C9_remove_missing_id_is_noop wLocal 2 [⟨1, [("name", "A")]⟩] [] [] [] []
      (.ok ()) rfl).1 (by decide) (by decide)

/-- C10: while mode is REMOTE (`useLocalStorage = false`) the direct
mutators `setFaculty`, `setRooms`, `setSubjects`, `setLeaveRequests` and
`setTimetable` write nothing: the store is identical before and after. -/
theorem claim_C10_remote_setters_are_noops (sm : StorageManager.SMState) (st : Store)
    (l : List Rec) (t : Timetable) (h : sm.useLocalStorage = false) :
    StorageManager.setFaculty sm st l = st
    ∧ StorageManager.setRooms sm st l = st
    ∧ StorageManager.setSubjects sm st l = st
    ∧ StorageManager.setLeaveRequests sm st l = st
    ∧ StorageManager.setTimetable sm st t = st := by
  simp [StorageManager.setFaculty, StorageManager.setRooms, StorageManager.setSubjects,
    StorageManager.setLeaveRequests, StorageManager.setTimetable, h]

theorem claim_C10_witness :
    StorageManager.setFaculty wRemote.sm [] [] = []
    ∧ StorageManager.setRooms wRemote.sm [] [] = []
    ∧ StorageManager.setSubjects wRemote.sm [] [] = []
    ∧ StorageManager.setLeaveRequests wRemote.sm [] [] = []
    ∧ StorageManager.setTimetable wRemote.sm [] [] = [] :=
  claim_C10_remote_setters_are_noops wRemote.sm [] [] [] rfl

/-- C1: in REMOTE mode, a `get` whose gateway request fails — a raised
transport error or a `success:false` envelope — returns the entity's
existing fallback value and never raises: `APIStorageAdapter` returns its
in-memory cache and leaves the cache untouched, and `StorageManager`
returns the durable local store's value and leaves the store (and its
flags) untouched; only the gateway-invocation counter moves.  The timetable
read returns the cached grid or, when none was ever fetched, the default
grid, with the cache again unchanged. -/
theorem claim_C1_remote_get_failure_degrades_to_cache
    (c : APIStorageAdapter.AdapterCache) (e : String)
    (r : APIStorageAdapter.ApiResp (List Rec))
    (rt : APIStorageAdapter.ApiResp (Option APIStorageAdapter.TTPayload))
    (w : StorageManager.World) (env : StorageManager.InitEnv)
    (hr : r.success = false) (hrt : rt.success = false)
    (hinit : w.sm.initialized = true) (hmode : w.sm.useLocalStorage = false) :
    (APIStorageAdapter.getFaculty c (.error e) = (c.faculty, c)
      ∧ APIStorageAdapter.getFaculty c (.ok r) = (c.faculty, c))
    ∧ (APIStorageAdapter.getRooms c (.error e) = (c.rooms, c)
      ∧ APIStorageAdapter.getRooms c (.ok r) = (c.rooms, c))
    ∧ (APIStorageAdapter.getSubjects c (.error e) = (c.subjects, c)
      ∧ APIStorageAdapter.getSubjects c (.ok r) = (c.subjects, c))
    ∧ (APIStorageAdapter.getLeaveRequests c (.error e) = (c.leaveRequests, c)
      ∧ APIStorageAdapter.getLeaveRequests c (.ok r) = (c.leaveRequests, c))
    ∧ (APIStorageAdapter.getTimetable c (.error e)
        = (c.timetable.getD APIStorageAdapter.getDefaultTimetable, c)
      ∧ APIStorageAdapter.getTimetable c (.ok rt)
        = (c.timetable.getD APIStorageAdapter.getDefaultTimetable, c))
    ∧ StorageManager.getFaculty w env (.error e)
        = (StorageManager.getFacultyFromLocalStorage w.store,
            { w with apiCalls := w.apiCalls + 1 })
    ∧ StorageManager.getRooms w env (.error e)
        = (StorageManager.getRoomsFromLocalStorage w.store,
            { w with apiCalls := w.apiCalls + 1 })
    ∧ StorageManager.getSubjects w env (.error e)
        = (StorageManager.getSubjectsFromLocalStorage w.store,
            { w with apiCalls := w.apiCalls + 1 })
    ∧ StorageManager.getLeaveRequests w env (.error e)
        = (StorageManager.getLeaveRequestsFromLocalStorage w.store,
            { w with apiCalls := w.apiCalls + 1 })
    ∧ StorageManager.getTimetable w env (.error e)
        = (asTT (getItem w.store StorageManager.timetableKey),
            { w with apiCalls := w.apiCalls + 1 }) := by
  obtain ⟨rts, rtd⟩ := rt
  have hrt' : rts = false := hrt
  subst hrt'
  refine ⟨⟨rfl, ?_⟩, ⟨rfl, ?_⟩, ⟨rfl, ?_⟩, ⟨rfl, ?_⟩, ⟨rfl, ?_⟩, ?_, ?_, ?_, ?_, ?_⟩
  · simp [APIStorageAdapter.getFaculty, hr]
  · simp [APIStorageAdapter.getRooms, hr]
  · simp [APIStorageAdapter.getSubjects, hr]
  · simp [APIStorageAdapter.getLeaveRequests, hr]
  · cases rtd <;> simp [APIStorageAdapter.getTimetable]
  · simp [StorageManager.getFaculty, StorageManager.ensureInit, hinit, hmode]
  · simp [StorageManager.getRooms, StorageManager.ensureInit, hinit, hmode]
  · simp [StorageManager.getSubjects, StorageManager.ensureInit, hinit, hmode]
  · simp [StorageManager.getLeaveRequests, StorageManager.ensureInit, hinit, hmode]
  · simp [StorageManager.getTimetable, StorageManager.ensureInit, hinit, hmode]

theorem claim_C1_witness :
    APIStorageAdapter.getFaculty APIStorageAdapter.initCache (.ok ⟨false, [⟨5, []⟩]⟩)
        = ([], APIStorageAdapter.initCache)
    ∧ StorageManager.getFaculty wRemote envOK (.error "network down")
        = (StorageManager.getFacultyFromLocalStorage wRemote.store,
            { wRemote with apiCalls := 1 }) := by
  have h := claim_C1_remote_get_failure_degrades_to_cache APIStorageAdapter.initCache
    "network down" ⟨false, [⟨5, []⟩]⟩ ⟨false, none⟩ wRemote envOK rfl rfl rfl rfl
  exact ⟨h.1.2, h.2.2.2.2.2.1⟩

/-- C3: in REMOTE mode, an `add` whose gateway request fails rethrows that
very error to the consumer and leaves the durable local store byte-for-byte
unchanged — there is no silent write-fallback — for faculty, rooms,
subjects and leave requests in `StorageManager`, and likewise
`APIStorageAdapter.addFaculty` rethrows with its cache untouched. -/
theorem claim_C3_remote_add_failure_raises_and_writes_nothing
    (w : StorageManager.World) (now : Int) (nowISO e : String)
    (d : List (String × String)) (c : APIStorageAdapter.AdapterCache)
    (refresh : Except String (APIStorageAdapter.ApiResp (List Rec)))
    (hmode : w.sm.useLocalStorage = false) :
    StorageManager.addFaculty w now d (.error e)
        = (.error e, { w with apiCalls := w.apiCalls + 1 })
    ∧ StorageManager.addRoom w now d (.error e)
        = (.error e, { w with apiCalls := w.apiCalls + 1 })
    ∧ StorageManager.addSubject w now d (.error e)
        = (.error e, { w with apiCalls := w.apiCalls + 1 })
    ∧ StorageManager.addLeaveRequest w now nowISO d (.error e)
        = (.error e, { w with apiCalls := w.apiCalls + 1 })
    ∧ APIStorageAdapter.addFaculty c d (.error e) refresh = (.error e, c) := by
  refine ⟨?_, ?_, ?_, ?_, rfl⟩
  · simp [StorageManager.addFaculty, hmode]
  · simp [StorageManager.addRoom, hmode]
  · simp [StorageManager.addSubject, hmode]
  · simp [StorageManager.addLeaveRequest, hmode]

theorem claim_C3_witness :
    StorageManager.addFaculty wRemote 7 dataA (.error "HTTP error! status: 500")
        = (.error "HTTP error! status: 500", { wRemote with apiCalls := 1 })
    ∧ APIStorageAdapter.addFaculty APIStorageAdapter.initCache dataA
        (.error "HTTP error! status: 500") (.ok ⟨true, []⟩)
        = (.error "HTTP error! status: 500", APIStorageAdapter.initCache) := by
  have h := claim_C3_remote_add_failure_raises_and_writes_nothing wRemote 7
    "2025-01-01T00:00:00Z" "HTTP error! status: 500" dataA APIStorageAdapter.initCache
    (.ok ⟨true, []⟩) rfl
  exact ⟨h.1, h.2.2.2.2⟩

/-- C4: every sequence made only of break/practical operations — get, add,
remove — leaves the gateway-invocation counter, the health-probe counter
and the manager's mode flags exactly where they were, in either mode: these
two entity types read and write only the durable local store. -/
theorem claim_C4_breaks_practicals_never_hit_gateway
    (env : StorageManager.InitEnv) (w : StorageManager.World)
    (ops : List StorageManager.SMOp)
    (h : ∀ op ∈ ops, op.isBreakOrPractical = true) :
    (StorageManager.runOps env w ops).apiCalls = w.apiCalls
    ∧ (StorageManager.runOps env w ops).probes = w.probes
    ∧ (StorageManager.runOps env w ops).sm = w.sm := by
  revert h
  induction ops generalizing w with
  | nil => intro _; exact ⟨rfl, rfl, rfl⟩
  | cons op ops ih =>
      intro h
      have hop : op.isBreakOrPractical = true := h op (List.mem_cons_self op ops)
      have hrest : ∀ o ∈ ops, o.isBreakOrPractical = true :=
        fun o ho => h o (List.mem_cons_of_mem op ho)
      have hstep : (StorageManager.runOp env w op).apiCalls = w.apiCalls
          ∧ (StorageManager.runOp env w op).probes = w.probes
          ∧ (StorageManager.runOp env w op).sm = w.sm := by
        cases op <;>
          first
            | exact ⟨rfl, rfl, rfl⟩
            | simp [StorageManager.SMOp.isBreakOrPractical] at hop
      have hih := ih (StorageManager.runOp env w op) hrest
      exact ⟨hih.1.trans hstep.1, hih.2.1.trans hstep.2.1, hih.2.2.trans hstep.2.2⟩

theorem claim_C4_witness :
    (StorageManager.runOps envOK wRemote
        [.opGetBreaks, .opAddBreak 5 dataA, .opRemoveBreak 5,
         .opGetPracticals, .opAddPractical 6 dataA, .opRemovePractical 6]).apiCalls
      = wRemote.apiCalls
    ∧ (StorageManager.runOps envOK wRemote
        [.opGetBreaks, .opAddBreak 5 dataA, .opRemoveBreak 5,
         .opGetPracticals, .opAddPractical 6 dataA, .opRemovePractical 6]).probes
      = wRemote.probes
    ∧ (StorageManager.runOps envOK wRemote
        [.opGetBreaks, .opAddBreak 5 dataA, .opRemoveBreak 5,
         .opGetPracticals, .opAddPractical 6 dataA, .opRemovePractical 6]).sm
      = wRemote.sm :=
  claim_C4_breaks_practicals_never_hit_gateway envOK wRemote _ (by decide)

/-- C2 counterexample: `StorageManager.init` has no `initialized` guard, so
a second sequential call from a fresh manager re-issues the health probe —
the probe counter after two calls differs from the counter after one,
refuting "the second call does not re-issue the health probe; mode is
decided exactly once per process lifetime" for the determination routine
itself. -/
theorem claim_C2_counterexample :
    (StorageManager.init (StorageManager.init wFresh envOK) envOK).probes
      ≠ (StorageManager.init wFresh envOK).probes := by
  decide

/-- C2 amended: under an unchanged environment a repeated `init` recommits
to the same mode and store (re-seeding is idempotent), but it re-issues the
health probe whenever the readiness wait succeeds; only the accessors'
`if (!this.initialized) await this.init()` guard makes the decision
once — an initialized manager passes through `ensureInit` untouched, with
no probe. -/
theorem claim_C2_guarded_determination_idempotent
    (w : StorageManager.World) (env : StorageManager.InitEnv) :
    ((StorageManager.init (StorageManager.init w env) env).sm
        = (StorageManager.init w env).sm
      ∧ (StorageManager.init (StorageManager.init w env) env).store
        = (StorageManager.init w env).store)
    ∧ ((StorageManager.waitForAPIClient env).isOk = true →
        (StorageManager.init (StorageManager.init w env) env).probes
          = (StorageManager.init w env).probes + 1)
    ∧ (w.sm.initialized = true → StorageManager.ensureInit w env = w) := by
  cases hw : StorageManager.waitForAPIClient env with
  | error msg =>
      refine ⟨⟨?_, ?_⟩, ?_, fun hi => by simp [StorageManager.ensureInit, hi]⟩
      · simp [StorageManager.init, hw]
      · simp [StorageManager.init, hw, StorageManager.initLocalStorage_idem]
      · intro hk
        simp [Except.isOk, Except.toBool] at hk
  | ok n =>
      by_cases hh : APIClient.healthCheck env.health
      · refine ⟨⟨?_, ?_⟩, fun _ => ?_, fun hi => by simp [StorageManager.ensureInit, hi]⟩ <;>
          simp [StorageManager.init, hw, hh]
      · refine ⟨⟨?_, ?_⟩, fun _ => ?_, fun hi => by simp [StorageManager.ensureInit, hi]⟩ <;>
          simp [StorageManager.init, hw, hh, StorageManager.initLocalStorage_idem]

theorem claim_C2_witness :
    ((StorageManager.init (StorageManager.init wFresh envOK) envOK).sm
        = (StorageManager.init wFresh envOK).sm)
    ∧ (StorageManager.ensureInit wRemote envOK = wRemote) :=
  ⟨(claim_C2_guarded_determination_idempotent wFresh envOK).1.1,
   (claim_C2_guarded_determination_idempotent wRemote envOK).2.2 rfl⟩

/-- C5 counterexample: force the probe to fail from a fresh manager over an
empty store — mode resolves to LOCAL and seeding runs, yet the practicals
and timetable keys hold no value afterwards, refuting "a non-null default
collection under every entity type's key". -/
theorem claim_C5_counterexample :
    (StorageManager.init wFresh envSick).sm.useLocalStorage = true
    ∧ getItem (StorageManager.init wFresh envSick).store StorageManager.practicalsKey
        = none
    ∧ getItem (StorageManager.init wFresh envSick).store StorageManager.timetableKey
        = none := by
  decide

/-- C5 amended: if the health probe fails, mode resolves to LOCAL and the
store is seeded with a non-null default under each of the six keys of
`initLocalStorage`'s default data — faculty, rooms, subjects, breaks, leave
requests and users — that held no value (practicals and timetable are not
seeded); no key that already holds a value is ever overwritten. -/
theorem claim_C5_probe_failure_seeds_local_defaults
    (w : StorageManager.World) (env : StorageManager.InitEnv)
    (hh : APIClient.healthCheck env.health = false) :
    (StorageManager.init w env).sm.useLocalStorage = true
    ∧ (getItem w.store StorageManager.facultyKey = none →
        getItem (StorageManager.init w env).store StorageManager.facultyKey
          = some (.arr []))
    ∧ (getItem w.store StorageManager.roomsKey = none →
        getItem (StorageManager.init w env).store StorageManager.roomsKey
          = some (.arr []))
    ∧ (getItem w.store StorageManager.subjectsKey = none →
        getItem (StorageManager.init w env).store StorageManager.subjectsKey
          = some (.arr []))
    ∧ (getItem w.store StorageManager.breaksKey = none →
        getItem (StorageManager.init w env).store StorageManager.breaksKey
          = some (.arr []))
    ∧ (getItem w.store StorageManager.leaveRequestsKey = none →
        getItem (StorageManager.init w env).store StorageManager.leaveRequestsKey
          = some (.arr []))
    ∧ (getItem w.store StorageManager.usersKey = none →
        getItem (StorageManager.init w env).store StorageManager.usersKey
          = some (.arr StorageManager.getDefaultUsers))
    ∧ (∀ k v, getItem w.store k = some v →
        getItem (StorageManager.init w env).store k = some v) := by
  have hstore : (StorageManager.init w env).store
      = StorageManager.initLocalStorage w.store := by
    cases hw : StorageManager.waitForAPIClient env <;>
      simp [StorageManager.init, hw, hh]
  have hmode : (StorageManager.init w env).sm.useLocalStorage = true := by
    cases hw : StorageManager.waitForAPIClient env <;>
      simp [StorageManager.init, hw, hh]
  refine ⟨hmode, ?_, ?_, ?_, ?_, ?_, ?_, ?_⟩
  · intro hk
    rw [hstore, StorageManager.getItem_initLocalStorage_faculty, hk]
    rfl
  · intro hk
    rw [hstore, StorageManager.getItem_initLocalStorage_rooms, hk]
    rfl
  · intro hk
    rw [hstore, StorageManager.getItem_initLocalStorage_subjects, hk]
    rfl
  · intro hk
    rw [hstore, StorageManager.getItem_initLocalStorage_breaks, hk]
    rfl
  · intro hk
    rw [hstore, StorageManager.getItem_initLocalStorage_leaveRequests, hk]
    rfl
  · intro hk
    rw [hstore, StorageManager.getItem_initLocalStorage_users, hk]
    rfl
  · intro k v hkv
    rw [hstore]
    exact StorageManager.getItem_initLocalStorage_preserved w.store k v hkv

theorem claim_C5_witness :
    (StorageManager.init wFresh envSick).sm.useLocalStorage = true
    ∧ getItem (StorageManager.init wFresh envSick).store StorageManager.facultyKey
        = some (.arr []) := by
  have h := claim_C5_probe_failure_seeds_local_defaults wFresh envSick (by decide)
  exact ⟨h.1, h.2.1 rfl⟩

/-- C6 counterexample: starting from the constructor's empty cache, an
`addFaculty` whose gateway create succeeds (id 7) but whose internal
refresh fetch fails RETURNS the created record — a successful write — while
the cache still does not contain id 7: the cache does not hold the result
of the most recent successful write. -/
theorem claim_C6_counterexample :
    (APIStorageAdapter.addFaculty APIStorageAdapter.initCache dataA
        (.ok ⟨true, 7⟩) (.error "network down")).1 = .ok ⟨7, dataA⟩
    ∧ ((APIStorageAdapter.addFaculty APIStorageAdapter.initCache dataA
        (.ok ⟨true, 7⟩) (.error "network down")).2.faculty.map Rec.id).contains 7
        = false :=
  ⟨rfl, rfl⟩

/-- C6 amended: no failing adapter operation clears or modifies the cache;
a successful `get` replaces the cache with its fresh result and a
successful `remove` stores the filtered collection; a successful `add`
updates the cache only through its refresh fetch — when the refresh
succeeds the cache holds the refreshed collection, and when it fails the
cache retains its prior value (so the cache can lag a successful add). -/
theorem claim_C6_cache_last_known_good
    (c : APIStorageAdapter.AdapterCache) (e : String) (l : List Rec)
    (rfail : APIStorageAdapter.ApiResp (List Rec))
    (refresh : Except String (APIStorageAdapter.ApiResp (List Rec)))
    (d : List (String × String)) (i : Int)
    (hr : rfail.success = false) :
    ((APIStorageAdapter.getFaculty c (.error e)).2 = c
      ∧ (APIStorageAdapter.getFaculty c (.ok rfail)).2 = c
      ∧ (APIStorageAdapter.getRooms c (.error e)).2 = c
      ∧ (APIStorageAdapter.getRooms c (.ok rfail)).2 = c
      ∧ (APIStorageAdapter.removeFaculty c i (.error e)).2 = c
      ∧ (APIStorageAdapter.removeFaculty c i (.ok ⟨false, ()⟩)).2 = c
      ∧ (APIStorageAdapter.addFaculty c d (.error e) refresh).2 = c
      ∧ (APIStorageAdapter.addFaculty c d (.ok ⟨false, i⟩) refresh).2 = c)
    ∧ (APIStorageAdapter.getFaculty c (.ok ⟨true, l⟩) = (l, { c with faculty := l })
      ∧ APIStorageAdapter.getRooms c (.ok ⟨true, l⟩) = (l, { c with rooms := l })
      ∧ APIStorageAdapter.removeFaculty c i (.ok ⟨true, ()⟩)
          = (.ok (c.faculty.filter (fun f => f.id ≠ i)),
             { c with faculty := c.faculty.filter (fun f => f.id ≠ i) }))
    ∧ ((APIStorageAdapter.addFaculty c d (.ok ⟨true, i⟩) (.ok ⟨true, l⟩)).2
          = { c with faculty := l }
      ∧ (APIStorageAdapter.addFaculty c d (.ok ⟨true, i⟩) (.error e)).2 = c) := by
  refine ⟨⟨rfl, ?_, rfl, ?_, rfl, rfl, rfl, rfl⟩, ⟨rfl, rfl, rfl⟩, rfl, rfl⟩
  · simp [APIStorageAdapter.getFaculty, hr]
  · simp [APIStorageAdapter.getRooms, hr]

theorem claim_C6_witness :
    (APIStorageAdapter.getFaculty APIStorageAdapter.initCache (.error "network down")).2
        = APIStorageAdapter.initCache
    ∧ APIStorageAdapter.getFaculty APIStorageAdapter.initCache (.ok ⟨true, [⟨3, []⟩]⟩)
        = ([⟨3, []⟩], { APIStorageAdapter.initCache with faculty := [⟨3, []⟩] }) := by
  have h := claim_C6_cache_last_known_good APIStorageAdapter.initCache "network down"
    [⟨3, []⟩] ⟨false, []⟩ (.error "network down") dataA 3 rfl
  exact ⟨h.1.1, h.2.1.1⟩

/-- C7 counterexample: a well-formed 200 response whose envelope is
`{success: false}` with no error message raises the fixed generic message
"API request failed", which is not the generic message keyed on the HTTP
status — refuting the claim's "generic message keyed on the HTTP status"
for the application-failure case. -/
theorem claim_C7_counterexample :
    @APIClient.makeRequest Nat (.resp true 200 (some ⟨false, none, none⟩))
      = .error "API request failed"
    ∧ "API request failed" ≠ "HTTP error! status: " ++ toString 200 :=
  ⟨rfl, by decide⟩

/-- C7 amended: every gateway request yields either the unwrapped payload
or one single raised-failure shape (`Except.error` with a message string):
a rejected fetch rethrows its message, an unparseable body raises the JSON
parse error, a non-2xx raises the upstream `error` or — absent one — the
generic message keyed on the HTTP status, and a `success:false` envelope
raises the upstream `error` or — absent one — the fixed generic
"API request failed" (not keyed on the status); a `success:true` envelope
returns `data.data` when present and otherwise the whole envelope. -/
theorem claim_C7_one_failure_shape
    {α : Type} (m : String) (status : Nat) (ok : Bool) (env : APIClient.Envelope α) :
    APIClient.makeRequest (.netError m)
        = (.error m : Except String (α ⊕ APIClient.Envelope α))
    ∧ APIClient.makeRequest (.resp ok status none)
        = (.error APIClient.jsonParseMsg : Except String (α ⊕ APIClient.Envelope α))
    ∧ APIClient.makeRequest (.resp false status (some env))
        = .error (env.error.getD ("HTTP error! status: " ++ toString status))
    ∧ (env.success = false →
        APIClient.makeRequest (.resp true status (some env))
          = .error (env.error.getD "API request failed"))
    ∧ (env.success = true →
        APIClient.makeRequest (.resp true status (some env))
          = .ok (match env.data with
                 | some d => Sum.inl d
                 | none => Sum.inr env)) := by
  refine ⟨rfl, rfl, ?_, fun hs => ?_, fun hs => ?_⟩
  · simp [APIClient.makeRequest]
  · simp [APIClient.makeRequest, hs]
  · simp [APIClient.makeRequest, hs]

theorem claim_C7_witness :
    @APIClient.makeRequest Nat (.resp true 502 (some ⟨false, some "boom", none⟩))
        = .error "boom"
    ∧ @APIClient.makeRequest Nat (.netError "fetch failed")
        = .error "fetch failed" := by
  have h := @claim_C7_one_failure_shape Nat "fetch failed" 502 true
    ⟨false, some "boom", none⟩
  exact ⟨h.2.2.2.1 rfl, h.1⟩
